import Mathlib

/-!
Verification of the Semgrep webhook receiver (`src/receiver.py`).

The service is a single FastAPI endpoint `POST /receiver` that
  1. compares the `Authorization` header against the string
     `"Bearer " + str(os.environ.get('API_TOKEN'))` (401 on mismatch),
  2. parses the JSON body (a parse failure is caught and returned as 400
     with the exception text),
  3. extracts a GitHub routing context from three request headers,
  4. when the context is complete, renders a textual summary of the scan
     report and posts it as a PR comment, swallowing every delivery failure,
  5. responds with a fixed success payload.

Modelling conventions of this shallow embedding:
  * A scan report is modelled by the structure `ScanReport`, the shape the
    spec's data model gives for the inbound payload: a list of results, each
    with optional rule id / severity / message / path / start line, plus a
    list of scan errors with optional messages.  `Option` models an absent
    JSON key; the Python `dict.get(key, default)` defaulting is the
    `Option.getD` calls below.  JSON numbers are modelled as `Int`
    (Semgrep line numbers are integers).  An absent `results` or `errors`
    key and an empty array coincide in the model (both are `[]`), exactly
    as they do for every observable behaviour of the code.
  * The HTTP body arrives in the handler as `Except String ScanReport`:
    `Except.error msg` models `await request.json()` raising a parse error
    with text `msg`, `Except.ok d` a successfully parsed report.
  * Header lookup is exact-string lookup in an association list (the CI
    workflow sends the canonical header casing).
  * The outbound `requests.post` is modelled by a `DeliveryOutcome`
    parameter: the status code it would return, or the transport exception
    it would raise.
  * Side effects that matter to the claims (was the body parsed, was a
    summary computed, was `post_github_comment` invoked, was the HTTP POST
    actually performed) are recorded in a `Trace` value returned next to
    the response.  `print` logging is not modelled.
-/

/-- One element of the `results` array of a Semgrep report: optional rule
identifier (`check_id`), severity, message, file path, and start line. -/
structure SemgrepResult where
  check_id : Option String
  severity : Option String
  message : Option String
  path : Option String
  start_line : Option Int
deriving DecidableEq, Repr

/-- One element of the `errors` array of a Semgrep report. -/
structure ScanError where
  message : Option String
deriving DecidableEq, Repr

/-- The inbound scan report: `results` and `errors` arrays. -/
structure ScanReport where
  results : List SemgrepResult
  errors : List ScanError
deriving DecidableEq, Repr

/-- Python `r.get('check_id', 'unknown')`. -/
def SemgrepResult.checkIdD (r : SemgrepResult) : String :=
  r.check_id.getD "unknown"

/-- Python `issue.get('path', 'Unknown file')`. -/
def SemgrepResult.pathD (r : SemgrepResult) : String :=
  r.path.getD "Unknown file"

/-- Python `issue.get('start', ...).get('line', '?')` rendered by the f-string:
the decimal of the line number, or `?` when absent. -/
def SemgrepResult.lineStr (r : SemgrepResult) : String :=
  match r.start_line with
  | some n => toString n
  | none => "?"

/-- Python `r.get('severity') == 'ERROR'`. -/
def isError (r : SemgrepResult) : Bool :=
  r.severity == some "ERROR"

/-- Python `r.get('severity') == 'WARNING'`. -/
def isWarning (r : SemgrepResult) : Bool :=
  r.severity == some "WARNING"

/-- Python `r.get('severity') == 'INFO'`. -/
def isInfo (r : SemgrepResult) : Bool :=
  r.severity == some "INFO"

/-- Insert a result under its rule key into the insertion-ordered grouping
dict: append to the existing entry for `key`, or add a new entry at the
end.  Models one iteration of the `issues_by_rule` loop. -/
def addToRule (acc : List (String × List SemgrepResult)) (key : String)
    (r : SemgrepResult) : List (String × List SemgrepResult) :=
  match acc with
  | [] => [(key, [r])]
  | (k, rs) :: rest =>
    if k = key then (k, rs ++ [r]) :: rest
    else (k, rs) :: addToRule rest key r

/-- Python `issues_by_rule`: group `results` by `check_id` (default
`'unknown'`), preserving first-seen key order and per-key result order,
as an insertion-ordered Python dict does. -/
def issues_by_rule (results : List SemgrepResult) :
    List (String × List SemgrepResult) :=
  results.foldl (fun acc r => addToRule acc r.checkIdD r) []

/-- Concatenation of the strings produced for each list element, in order:
models a Python `for` loop accumulating into `summary` with `+=`. -/
def strConcatMap (f : α → String) : List α → String
  | [] => ""
  | a :: l => f a ++ strConcatMap f l

/-- The per-file line `- \x60path\x60 (line n)` emitted for one issue. -/
def fileLine (issue : SemgrepResult) : String :=
  "- `" ++ issue.pathD ++ "` (line " ++ issue.lineStr ++ ")\n"

/-- The capped file entries of a critical rule section:
`for issue in rule_critical[:5]`. -/
def criticalFileEntries (rule_critical : List SemgrepResult) : List String :=
  (rule_critical.take 5).map fileLine

/-- File entries of a critical rule section plus the elision line emitted
when more than 5 files are affected. -/
def criticalFileLines (rule_critical : List SemgrepResult) : List String :=
  criticalFileEntries rule_critical ++
    (if rule_critical.length > 5 then
      ["- ... and " ++ toString (rule_critical.length - 5) ++ " more files\n"]
    else [])

/-- Python `rule_critical[0].get('message', 'No message')`. -/
def headMessageD (rule_critical : List SemgrepResult) : String :=
  match rule_critical with
  | r :: _ => r.message.getD "No message"
  | [] => "No message"

/-- The section the critical-issues loop emits for one `issues_by_rule`
entry: empty when the rule has no `ERROR` results, otherwise the rule
header, first message, and capped affected-file list. -/
def criticalRuleSection (rule_id : String)
    (rule_results : List SemgrepResult) : String :=
  let rule_critical := rule_results.filter isError
  if rule_critical.isEmpty then ""
  else
    "### `" ++ rule_id ++ "`\n" ++
    "**Message:** " ++ headMessageD rule_critical ++ "\n\n" ++
    "**Affected Files:**\n" ++
    strConcatMap id (criticalFileLines rule_critical) ++
    "\n"

/-- The `## Critical Issues` block: emitted only when some result has
severity `ERROR`. -/
def criticalBlock (results : List SemgrepResult) : String :=
  if (results.filter isError).isEmpty then ""
  else
    "## 🚨 Critical Issues (Must Fix)\n\n" ++
    strConcatMap (fun e => criticalRuleSection e.1 e.2) (issues_by_rule results)

/-- The capped file entries of a warning rule section:
`for issue in rule_warnings[:3]`. -/
def warningFileEntries (rule_warnings : List SemgrepResult) : List String :=
  (rule_warnings.take 3).map fileLine

/-- File entries of a warning rule section plus the elision line emitted
when more than 3 files are affected. -/
def warningFileLines (rule_warnings : List SemgrepResult) : List String :=
  warningFileEntries rule_warnings ++
    (if rule_warnings.length > 3 then
      ["- ... and " ++ toString (rule_warnings.length - 3) ++ " more\n"]
    else [])

/-- The section the warnings loop emits for one `issues_by_rule` entry. -/
def warningRuleSection (rule_id : String)
    (rule_results : List SemgrepResult) : String :=
  let rule_warnings := rule_results.filter isWarning
  if rule_warnings.isEmpty then ""
  else
    "### `" ++ rule_id ++ "`\n" ++
    "**Files affected:** " ++ toString rule_warnings.length ++ "\n" ++
    strConcatMap id (warningFileLines rule_warnings) ++
    "\n"

/-- The `## Warnings` block: emitted only when some result has severity
`WARNING`. -/
def warningBlock (results : List SemgrepResult) : String :=
  if (results.filter isWarning).isEmpty then ""
  else
    "## ⚠️ Warnings\n\n" ++
    strConcatMap (fun e => warningRuleSection e.1 e.2) (issues_by_rule results)

/-- Whether `pat` occurs as a contiguous prefix of `l` (character lists). -/
def isPrefixChars : List Char → List Char → Bool
  | [], _ => true
  | _ :: _, [] => false
  | a :: pa, b :: l => a == b && isPrefixChars pa l

/-- Whether `pat` occurs as a contiguous substring of `l` (character lists). -/
def occursChars (pat : List Char) : List Char → Bool
  | [] => isPrefixChars pat []
  | b :: l => isPrefixChars pat (b :: l) || occursChars pat l

/-- Whether `pat` occurs as a contiguous substring of `s`. -/
def OccursIn (pat s : String) : Bool :=
  occursChars pat.data s.data

/-- Number of (possibly overlapping) occurrences of `pat` in `l`. -/
def countOccChars (pat : List Char) : List Char → Nat
  | [] => if isPrefixChars pat [] then 1 else 0
  | b :: l => (if isPrefixChars pat (b :: l) then 1 else 0) + countOccChars pat l

/-- Number of occurrences of `pat` as a contiguous substring of `s`. -/
def countOccStr (pat s : String) : Nat :=
  countOccChars pat.data s.data

/-- Python `'no-components-in-core' in str(r.get('check_id', ''))`. -/
def mentionsCoreRule (r : SemgrepResult) : Bool :=
  OccursIn "no-components-in-core" (r.check_id.getD "")

/-- The `## Recommendations` block, emitted when any rule id contains the
marker `no-components-in-core`. -/
def recommendationsBlock (results : List SemgrepResult) : String :=
  if results.any mentionsCoreRule then
    "## 🔧 Recommendations\n\n" ++
    "**Architecture Violation Detected:**\n" ++
    "- Components found in `_core/` directory\n" ++
    "- Move components to appropriate feature modules\n" ++
    "- Keep `_core/` for shared services, guards, and utilities only\n\n"
  else ""

/-- The `## Action Items` block, emitted when critical issues exist. -/
def actionItemsBlock (results : List SemgrepResult) : String :=
  if (results.filter isError).isEmpty then ""
  else
    "## 📋 Action Items\n\n" ++
    "- [ ] Fix all critical issues before merging\n" ++
    "- [ ] Review architectural guidelines\n" ++
    "- [ ] Run `semgrep --config rules.yaml .` locally for detailed output\n"

/-- The `## Scan Errors` block: up to 3 error messages, emitted when the
`errors` array is non-empty. -/
def scanErrorsBlock (errors : List ScanError) : String :=
  if errors.isEmpty then ""
  else
    "\n## ⚠️ Scan Errors\n\n" ++
    strConcatMap (fun e => "- " ++ e.message.getD "Unknown error" ++ "\n")
      (errors.take 3)

/-- The fixed line carrying the total issue count. -/
def totalIssuesLine (results : List SemgrepResult) : String :=
  "**Total Issues Found:** " ++ toString results.length ++ "\n"

/-- The overview: scan banner, total count, and per-severity counts for
each non-empty severity tier, followed by the `---` separator. -/
def overviewBlock (results : List SemgrepResult) : String :=
  "🔍 **Semgrep Security & Architecture Scan Results**\n\n" ++
  totalIssuesLine results ++
  (if (results.filter isError).isEmpty then ""
   else "🚨 **Critical:** " ++ toString (results.filter isError).length ++ "\n") ++
  (if (results.filter isWarning).isEmpty then ""
   else "⚠️ **Warnings:** " ++ toString (results.filter isWarning).length ++ "\n") ++
  (if (results.filter isInfo).isEmpty then ""
   else "ℹ️ **Info:** " ++ toString (results.filter isInfo).length ++ "\n") ++
  "\n---\n\n"

/-- The fixed message returned for a report with no results and no errors. -/
def noIssuesMessage : String :=
  "✅ **Semgrep Security Scan Complete**\n\nNo issues found! Your code follows the defined security and architectural rules."

/-- Python `summarize_semgrep_results`: the textual summary of a scan
report, assembled exactly in the source's emission order. -/
def summarize_semgrep_results (semgrep_data : ScanReport) : String :=
  if semgrep_data.results.isEmpty && semgrep_data.errors.isEmpty then
    noIssuesMessage
  else
    overviewBlock semgrep_data.results ++
    criticalBlock semgrep_data.results ++
    warningBlock semgrep_data.results ++
    recommendationsBlock semgrep_data.results ++
    actionItemsBlock semgrep_data.results ++
    scanErrorsBlock semgrep_data.errors

/-!
The request handler.  `receive_semgrep` in the source authenticates, parses
the body, extracts the GitHub routing context, and — when the context is
complete — summarizes and posts a PR comment, always returning the fixed
success payload; exceptions inside the `try` become 400 responses.
-/

/-- Python truthiness of an optional header value: `None` and the empty
string are falsy, any other string truthy. -/
def pyTruthyStrOpt : Option String → Bool
  | none => false
  | some s => !s.isEmpty

/-- The f-string rendering of `os.environ.get(...)`: the string itself, or
the literal `None` when the variable is absent. -/
def pyStrOfOpt : Option String → String
  | some s => s
  | none => "None"

/-- Characters Python's `int()` strips around a numeric literal (ASCII
whitespace; Unicode space handling is out of the modelled fragment). -/
def isPyIntSpace (c : Char) : Bool :=
  c = ' ' || c = '\t' || c = '\n' || c = '\r' || c = Char.ofNat 11 || c = Char.ofNat 12

/-- Strip leading and trailing whitespace from a character list. -/
def stripWsChars (l : List Char) : List Char :=
  ((l.dropWhile isPyIntSpace).reverse.dropWhile isPyIntSpace).reverse

/-- Decimal digit value of an ASCII digit. -/
def digitVal (c : Char) : Nat := c.toNat - 48

/-- Continue reading a decimal literal after at least one digit: further
digits, with single underscores allowed only between digits, as Python's
`int()` accepts. -/
def pyDigitsCore (acc : Nat) : List Char → Option Nat
  | [] => some acc
  | c :: rest =>
    if c.isDigit then pyDigitsCore (acc * 10 + digitVal c) rest
    else if c = '_' then
      match rest with
      | c2 :: rest2 =>
        if c2.isDigit then pyDigitsCore (acc * 10 + digitVal c2) rest2
        else none
      | [] => none
    else none

/-- Read an unsigned decimal literal (non-empty, first character a digit,
underscores only between digits). -/
def pyDigits : List Char → Option Nat
  | [] => none
  | c :: rest => if c.isDigit then pyDigitsCore (digitVal c) rest else none

/-- Hexadecimal digit character for a value below 16. -/
def hexDigitChar (n : Nat) : Char :=
  if n < 10 then Char.ofNat (48 + n) else Char.ofNat (97 + n - 10)

/-- Escape one character the way Python's `repr` of a string does (ASCII
fragment: backslash, the active quote, newline/return/tab, and `\xhh` for
other control characters; non-ASCII printable characters pass through). -/
def pyEscapeChar (quote : Char) (c : Char) : String :=
  if c = '\\' then "\\\\"
  else if c = quote then "\\" ++ String.singleton quote
  else if c = '\n' then "\\n"
  else if c = '\r' then "\\r"
  else if c = '\t' then "\\t"
  else if c.toNat < 32 || c.toNat = 127 then
    "\\x" ++ String.singleton (hexDigitChar (c.toNat / 16)) ++
      String.singleton (hexDigitChar (c.toNat % 16))
  else String.singleton c

/-- Python `repr` of a string: single-quoted, switching to double quotes
when the string contains a single quote but no double quote. -/
def pyRepr (s : String) : String :=
  let squote : Char := Char.ofNat 39
  let dquote : Char := Char.ofNat 34
  let q : Char :=
    if s.data.contains squote && !s.data.contains dquote then dquote else squote
  String.singleton q ++ strConcatMap (pyEscapeChar q) s.data ++ String.singleton q

/-- Python `int(s)` on a string: optional surrounding whitespace, optional
sign, then a decimal literal; on failure, the `ValueError` text
`invalid literal for int() with base 10: repr(s)`. -/
def pyInt (s : String) : Except String Int :=
  let t := stripWsChars s.data
  let core : Option Int :=
    match t with
    | '+' :: rest => (pyDigits rest).map Int.ofNat
    | '-' :: rest => (pyDigits rest).map (fun n => -(Int.ofNat n))
    | _ => (pyDigits t).map Int.ofNat
  match core with
  | some n => Except.ok n
  | none => Except.error ("invalid literal for int() with base 10: " ++ pyRepr s)

/-- The routing triple `extract_github_context` returns when all three
headers are truthy. -/
structure GithubContext where
  owner : String
  repo : String
  pr_number : Int
deriving DecidableEq, Repr

/-- Header lookup, `request.headers.get(name)`. -/
def headerGet (headers : List (String × String)) (name : String) : Option String :=
  headers.lookup name

/-- Python `extract_github_context`: read the three routing headers; when
all are truthy build the context (converting the PR number with `int`,
whose `ValueError` propagates as `Except.error`), otherwise return
nothing. -/
def extract_github_context (headers : List (String × String)) :
    Except String (Option GithubContext) :=
  let repo_owner := headerGet headers "X-GitHub-Repository-Owner"
  let repo_name := headerGet headers "X-GitHub-Repository-Name"
  let pr_number := headerGet headers "X-GitHub-PR-Number"
  if pyTruthyStrOpt repo_owner && pyTruthyStrOpt repo_name &&
      pyTruthyStrOpt pr_number then
    match pyInt (pr_number.getD "") with
    | Except.ok n =>
      Except.ok (some ⟨repo_owner.getD "", repo_name.getD "", n⟩)
    | Except.error e => Except.error e
  else
    Except.ok none

/-- What the outbound `requests.post` to the GitHub comment API would do:
return a status code, or raise a transport exception. -/
inductive DeliveryOutcome where
  | status (code : Nat)
  | exc (msg : String)
deriving DecidableEq, Repr

/-- Python `post_github_comment`: skipped entirely when `GITHUB_TOKEN` is
unset (or empty), otherwise performs the POST and treats exactly a 201
status as success, swallowing every exception.  Returns the function's
boolean result paired with whether the HTTP POST was actually performed. -/
def post_github_comment (github_token : Option String)
    (outcome : DeliveryOutcome) : Bool × Bool :=
  if !pyTruthyStrOpt github_token then (false, false)
  else
    match outcome with
    | DeliveryOutcome.status code => (code == 201, true)
    | DeliveryOutcome.exc _ => (false, true)

/-- Process-wide configuration read from the environment. -/
structure Env where
  api_token : Option String
  github_token : Option String
deriving DecidableEq, Repr

/-- An inbound request: its headers and the outcome of parsing its body as
JSON (`Except.error msg` models a parse failure raising with text `msg`). -/
structure ReceiverRequest where
  headers : List (String × String)
  body : Except String ScanReport
deriving Repr

/-- The handler's HTTP response: a 200 JSON body (association list of
fields, as `JSONResponse(content=...)` produces), or an `HTTPException`
with a status code and detail string. -/
inductive Response where
  | jsonOk (content : List (String × String))
  | httpError (code : Nat) (detail : String)
deriving DecidableEq, Repr

/-- The fixed success payload of the endpoint. -/
def successResponse : Response :=
  Response.jsonOk [("status", "success"), ("message", "Results received and processed")]

/-- Which effects a request's handling performed. -/
structure Trace where
  body_parse_attempted : Bool
  summary_computed : Bool
  post_comment_called : Bool
  http_post_sent : Bool
deriving DecidableEq, Repr

/-- Python `receive_semgrep`, the `POST /receiver` handler: authenticate
against `Bearer` + `API_TOKEN` (401 on mismatch, before any body access);
then inside the `try`, parse the body, extract the routing context, and
when the context is present summarize and post the comment; any exception
in the `try` yields 400 with the exception text; otherwise the fixed
success payload is returned. -/
def receive_semgrep (env : Env) (req : ReceiverRequest)
    (outcome : DeliveryOutcome) : Response × Trace :=
  let auth_header := headerGet req.headers "Authorization"
  if auth_header ≠ some ("Bearer " ++ pyStrOfOpt env.api_token) then
    (Response.httpError 401 "Unauthorized", ⟨false, false, false, false⟩)
  else
    match req.body with
    | Except.error e =>
      (Response.httpError 400 e, ⟨true, false, false, false⟩)
    | Except.ok semgrep_data =>
      match extract_github_context req.headers with
      | Except.error e =>
        (Response.httpError 400 e, ⟨true, false, false, false⟩)
      | Except.ok none =>
        (successResponse, ⟨true, false, false, false⟩)
      | Except.ok (some _github_context) =>
        let _summary := summarize_semgrep_results semgrep_data
        let posted := post_github_comment env.github_token outcome
        (successResponse, ⟨true, true, true, posted.2⟩)

/-!
Concrete fixtures used by witnesses and counterexamples.
-/

/-- A report with six `ERROR` results under the single rule `rule-x`. -/
def sixErrorReport : ScanReport :=
  ⟨[⟨some "rule-x", some "ERROR", some "bad call", some "src/f1.py", some 1⟩,
    ⟨some "rule-x", some "ERROR", some "bad call", some "src/f2.py", some 2⟩,
    ⟨some "rule-x", some "ERROR", some "bad call", some "src/f3.py", some 3⟩,
    ⟨some "rule-x", some "ERROR", some "bad call", some "src/f4.py", some 4⟩,
    ⟨some "rule-x", some "ERROR", some "bad call", some "src/f5.py", some 5⟩,
    ⟨some "rule-x", some "ERROR", some "bad call", some "src/f6.py", some 6⟩], []⟩

/-- A single `INFO`-severity result at a known file path. -/
def infoResult : SemgrepResult :=
  ⟨some "rule-i", some "INFO", some "heads up", some "app/main.py", some 3⟩

/-- A report whose only result has severity `INFO`. -/
def infoReport : ScanReport := ⟨[infoResult], []⟩

/-- A report with one `ERROR` result and one `WARNING` result. -/
def mixedReport : ScanReport :=
  ⟨[⟨some "rule-a", some "ERROR", some "m1", some "a.py", some 1⟩,
    ⟨some "rule-b", some "WARNING", some "m2", some "b.py", some 2⟩], []⟩

/-- An environment with both tokens configured. -/
def envBoth : Env := ⟨some "tok", some "gh"⟩

/-- Headers of a fully routed, correctly authorized request. -/
def fullHeaders : List (String × String) :=
  [("Authorization", "Bearer tok"),
   ("X-GitHub-Repository-Owner", "octo"),
   ("X-GitHub-Repository-Name", "webapp"),
   ("X-GitHub-PR-Number", "12")]

/-- The same headers with a non-numeric pull-request number. -/
def badPrHeaders : List (String × String) :=
  [("Authorization", "Bearer tok"),
   ("X-GitHub-Repository-Owner", "octo"),
   ("X-GitHub-Repository-Name", "webapp"),
   ("X-GitHub-PR-Number", "abc")]

/-- Authorized headers whose routing headers are incomplete: the owner
header is missing and the name header is empty. -/
def incompleteHeaders : List (String × String) :=
  [("Authorization", "Bearer tok"),
   ("X-GitHub-Repository-Name", ""),
   ("X-GitHub-PR-Number", "12")]

/-!
Helper lemmas: substring occurrence, concatenation, and the grouping map.
-/

theorem isPrefixChars_iff (pat : List Char) : ∀ l : List Char,
    isPrefixChars pat l = true ↔ ∃ t, l = pat ++ t := by
  induction pat with
  | nil => intro l; simp [isPrefixChars]
  | cons a pa ih =>
    intro l
    cases l with
    | nil =>
      simp [isPrefixChars]
    | cons b t =>
      simp only [isPrefixChars, Bool.and_eq_true, beq_iff_eq, ih]
      constructor
      · rintro ⟨rfl, t', rfl⟩
        exact ⟨t', rfl⟩
      · rintro ⟨t', h⟩
        injection h with h1 h2
        exact ⟨h1.symm, t', h2⟩

theorem occursChars_iff (pat : List Char) : ∀ l : List Char,
    occursChars pat l = true ↔ ∃ pre post, l = pre ++ (pat ++ post) := by
  intro l
  induction l with
  | nil =>
    simp only [occursChars, isPrefixChars_iff]
    constructor
    · rintro ⟨t, ht⟩
      exact ⟨[], t, ht⟩
    · rintro ⟨pre, post, h⟩
      refine ⟨post, ?_⟩
      cases pre with
      | nil => simpa using h
      | cons c pre' => simp at h
  | cons b t ih =>
    simp only [occursChars, Bool.or_eq_true, isPrefixChars_iff, ih]
    constructor
    · rintro (⟨t', ht⟩ | ⟨pre, post, h⟩)
      · exact ⟨[], t', ht⟩
      · exact ⟨b :: pre, post, by rw [List.cons_append, h]⟩
    · rintro ⟨pre, post, h⟩
      cases pre with
      | nil => exact Or.inl ⟨post, by simpa using h⟩
      | cons c pre' =>
        right
        rw [List.cons_append] at h
        injection h with h1 h2
        exact ⟨pre', post, h2⟩

theorem strData_append (a b : String) : (a ++ b).data = a.data ++ b.data := rfl

theorem occursIn_self (pat : String) : OccursIn pat pat = true :=
  (occursChars_iff _ _).mpr ⟨[], [], by simp⟩

theorem occursIn_self_append (pat b : String) : OccursIn pat (pat ++ b) = true := by
  rw [OccursIn, strData_append]
  exact (occursChars_iff _ _).mpr ⟨[], b.data, rfl⟩

theorem occursIn_append_left (pat a b : String) (h : OccursIn pat a = true) :
    OccursIn pat (a ++ b) = true := by
  rw [OccursIn, strData_append]
  obtain ⟨pre, post, hp⟩ := (occursChars_iff _ _).mp h
  exact (occursChars_iff _ _).mpr ⟨pre, post ++ b.data, by rw [hp]; simp⟩

theorem occursIn_append_right (pat a b : String) (h : OccursIn pat b = true) :
    OccursIn pat (a ++ b) = true := by
  rw [OccursIn, strData_append]
  obtain ⟨pre, post, hp⟩ := (occursChars_iff _ _).mp h
  exact (occursChars_iff _ _).mpr ⟨a.data ++ pre, post, by rw [hp]; simp⟩

theorem occursIn_concatMap {α : Type} (pat : String) (f : α → String)
    (l : List α) (x : α) (hx : x ∈ l) (h : OccursIn pat (f x) = true) :
    OccursIn pat (strConcatMap f l) = true := by
  induction l with
  | nil => cases hx
  | cons a t ih =>
    rw [strConcatMap]
    rcases List.mem_cons.mp hx with rfl | hmem
    · exact occursIn_append_left _ _ _ h
    · exact occursIn_append_right _ _ _ (ih hmem)

theorem isEmpty_false_of_mem {α : Type} {l : List α} {x : α} (h : x ∈ l) :
    l.isEmpty = false := by
  cases l with
  | nil => cases h
  | cons a t => rfl

theorem addToRule_mem_self (acc : List (String × List SemgrepResult))
    (key : String) (r : SemgrepResult) :
    ∃ rs, (key, rs) ∈ addToRule acc key r ∧ r ∈ rs := by
  induction acc with
  | nil => exact ⟨[r], by simp [addToRule], by simp⟩
  | cons e rest ih =>
    obtain ⟨k, krs⟩ := e
    by_cases hk : k = key
    · subst hk
      exact ⟨krs ++ [r], by simp [addToRule], by simp⟩
    · obtain ⟨rs', h1, h2⟩ := ih
      refine ⟨rs', ?_, h2⟩
      simp [addToRule, hk]
      exact Or.inr h1

theorem addToRule_mem_mono (acc : List (String × List SemgrepResult))
    (key key' : String) (r x : SemgrepResult) (rs : List SemgrepResult)
    (h1 : (key, rs) ∈ acc) (h2 : x ∈ rs) :
    ∃ rs', (key, rs') ∈ addToRule acc key' r ∧ x ∈ rs' := by
  induction acc with
  | nil => cases h1
  | cons e rest ih =>
    obtain ⟨k, krs⟩ := e
    rcases List.mem_cons.mp h1 with heq | hmem
    · have hkey : key = k := congrArg Prod.fst heq
      have hrs : rs = krs := congrArg Prod.snd heq
      subst hkey
      subst hrs
      by_cases hk : key = key'
      · subst hk
        refine ⟨rs ++ [r], ?_, List.mem_append_left _ h2⟩
        simp [addToRule]
      · refine ⟨rs, ?_, h2⟩
        simp [addToRule, hk]
    · by_cases hk : k = key'
      · subst hk
        refine ⟨rs, ?_, h2⟩
        simp [addToRule]
        exact Or.inr hmem
      · obtain ⟨rs', hh1, hh2⟩ := ih hmem
        refine ⟨rs', ?_, hh2⟩
        simp [addToRule, hk]
        exact Or.inr hh1

theorem foldl_addToRule_mem (l : List SemgrepResult) :
    ∀ (acc : List (String × List SemgrepResult)) (x : SemgrepResult) (key : String),
      ((∃ rs, (key, rs) ∈ acc ∧ x ∈ rs) ∨ (x ∈ l ∧ key = x.checkIdD)) →
      ∃ rs, (key, rs) ∈ l.foldl (fun a r => addToRule a r.checkIdD r) acc ∧ x ∈ rs := by
  induction l with
  | nil =>
    rintro acc x key (⟨rs, h1, h2⟩ | ⟨hx, _⟩)
    · exact ⟨rs, h1, h2⟩
    · cases hx
  | cons a t ih =>
    rintro acc x key (⟨rs, h1, h2⟩ | ⟨hx, rfl⟩)
    · refine ih _ x key (Or.inl ?_)
      exact addToRule_mem_mono acc key a.checkIdD a x rs h1 h2
    · rcases List.mem_cons.mp hx with rfl | hmem
      · exact ih _ x _ (Or.inl (addToRule_mem_self acc _ x))
      · exact ih _ x _ (Or.inr ⟨hmem, rfl⟩)

theorem mem_issues_by_rule (results : List SemgrepResult) (x : SemgrepResult)
    (hx : x ∈ results) :
    ∃ rs, (x.checkIdD, rs) ∈ issues_by_rule results ∧ x ∈ rs :=
  foldl_addToRule_mem results [] x _ (Or.inr ⟨hx, rfl⟩)

theorem criticalRuleSection_header (rule_id : String)
    (rule_results : List SemgrepResult)
    (h : (rule_results.filter isError).isEmpty = false) :
    OccursIn ("### `" ++ rule_id ++ "`\n") (criticalRuleSection rule_id rule_results) = true := by
  unfold criticalRuleSection
  simp only [h, Bool.false_eq_true, if_false]
  exact occursIn_append_left _ _ _ (occursIn_append_left _ _ _
    (occursIn_append_left _ _ _ (occursIn_append_left _ _ _
      (occursIn_append_left _ _ _ (occursIn_self_append _ _)))))

theorem warningRuleSection_header (rule_id : String)
    (rule_results : List SemgrepResult)
    (h : (rule_results.filter isWarning).isEmpty = false) :
    OccursIn ("### `" ++ rule_id ++ "`\n") (warningRuleSection rule_id rule_results) = true := by
  unfold warningRuleSection
  simp only [h, Bool.false_eq_true, if_false]
  exact occursIn_append_left _ _ _ (occursIn_append_left _ _ _
    (occursIn_append_left _ _ _ (occursIn_append_left _ _ _
      (occursIn_self_append _ _))))

theorem criticalBlock_rule_header (results : List SemgrepResult)
    (r : SemgrepResult) (hr : r ∈ results) (he : isError r = true) :
    OccursIn ("### `" ++ r.checkIdD ++ "`\n") (criticalBlock results) = true := by
  have hne : (results.filter isError).isEmpty = false :=
    isEmpty_false_of_mem (List.mem_filter.mpr ⟨hr, he⟩)
  unfold criticalBlock
  simp only [hne, Bool.false_eq_true, if_false]
  obtain ⟨rs, hmem, hrin⟩ := mem_issues_by_rule results r hr
  refine occursIn_append_right _ _ _ ?_
  refine occursIn_concatMap _ (fun e => criticalRuleSection e.1 e.2)
    _ (r.checkIdD, rs) hmem ?_
  exact criticalRuleSection_header r.checkIdD rs
    (isEmpty_false_of_mem (List.mem_filter.mpr ⟨hrin, he⟩))

theorem warningBlock_rule_header (results : List SemgrepResult)
    (r : SemgrepResult) (hr : r ∈ results) (hw : isWarning r = true) :
    OccursIn ("### `" ++ r.checkIdD ++ "`\n") (warningBlock results) = true := by
  have hne : (results.filter isWarning).isEmpty = false :=
    isEmpty_false_of_mem (List.mem_filter.mpr ⟨hr, hw⟩)
  unfold warningBlock
  simp only [hne, Bool.false_eq_true, if_false]
  obtain ⟨rs, hmem, hrin⟩ := mem_issues_by_rule results r hr
  refine occursIn_append_right _ _ _ ?_
  refine occursIn_concatMap _ (fun e => warningRuleSection e.1 e.2)
    _ (r.checkIdD, rs) hmem ?_
  exact warningRuleSection_header r.checkIdD rs
    (isEmpty_false_of_mem (List.mem_filter.mpr ⟨hrin, hw⟩))

theorem overviewBlock_total (results : List SemgrepResult) :
    OccursIn (totalIssuesLine results) (overviewBlock results) = true := by
  unfold overviewBlock
  exact occursIn_append_left _ _ _ (occursIn_append_left _ _ _
    (occursIn_append_left _ _ _ (occursIn_append_left _ _ _
      (occursIn_append_right _ _ _ (occursIn_self _)))))

theorem summarize_nonempty_eq (d : ScanReport)
    (h : (d.results.isEmpty && d.errors.isEmpty) = false) :
    summarize_semgrep_results d =
      overviewBlock d.results ++ criticalBlock d.results ++
      warningBlock d.results ++ recommendationsBlock d.results ++
      actionItemsBlock d.results ++ scanErrorsBlock d.errors := by
  unfold summarize_semgrep_results
  simp only [h, Bool.false_eq_true, if_false]

theorem occursIn_trans (p a b : String) (h1 : OccursIn p a = true)
    (h2 : OccursIn a b = true) : OccursIn p b = true := by
  obtain ⟨pre, post, hp⟩ := (occursChars_iff _ _).mp h1
  obtain ⟨pre', post', hp'⟩ := (occursChars_iff _ _).mp h2
  refine (occursChars_iff _ _).mpr ⟨pre' ++ pre, post ++ post', ?_⟩
  rw [hp', hp]
  simp

theorem addToRule_elem_src (acc : List (String × List SemgrepResult))
    (key : String) (x : SemgrepResult) :
    ∀ e ∈ addToRule acc key x, ∀ r ∈ e.2,
      (∃ e' ∈ acc, r ∈ e'.2) ∨ r = x := by
  induction acc with
  | nil =>
    intro e he r hr
    simp [addToRule] at he
    subst he
    simp at hr
    exact Or.inr hr
  | cons p rest ih =>
    obtain ⟨k, krs⟩ := p
    intro e he r hr
    by_cases hk : k = key
    · subst hk
      simp [addToRule] at he
      rcases he with rfl | hmem
      · rcases List.mem_append.mp hr with h1 | h2
        · exact Or.inl ⟨(k, krs), by simp, h1⟩
        · simp at h2
          exact Or.inr h2
      · exact Or.inl ⟨e, by simp [hmem], hr⟩
    · simp [addToRule, hk] at he
      rcases he with rfl | hmem
      · exact Or.inl ⟨(k, krs), by simp, hr⟩
      · rcases ih e hmem r hr with ⟨e', he', hr'⟩ | heq
        · exact Or.inl ⟨e', by simp [he'], hr'⟩
        · exact Or.inr heq

theorem foldl_addToRule_src (l : List SemgrepResult) :
    ∀ (acc : List (String × List SemgrepResult)),
      ∀ e ∈ l.foldl (fun a r => addToRule a r.checkIdD r) acc, ∀ x ∈ e.2,
        (∃ e' ∈ acc, x ∈ e'.2) ∨ x ∈ l := by
  induction l with
  | nil =>
    intro acc e he x hx
    exact Or.inl ⟨e, he, hx⟩
  | cons a t ih =>
    intro acc e he x hx
    rcases ih (addToRule acc a.checkIdD a) e he x hx with ⟨e', he', hx'⟩ | hmem
    · rcases addToRule_elem_src acc a.checkIdD a e' he' x hx' with ⟨e'', he'', hx''⟩ | heq
      · exact Or.inl ⟨e'', he'', hx''⟩
      · exact Or.inr (by simp [heq])
    · exact Or.inr (List.mem_cons_of_mem _ hmem)

theorem issues_by_rule_src (results : List SemgrepResult)
    (e : String × List SemgrepResult) (he : e ∈ issues_by_rule results)
    (x : SemgrepResult) (hx : x ∈ e.2) : x ∈ results := by
  rcases foldl_addToRule_src results [] e he x hx with ⟨e', he', _⟩ | h
  · cases he'
  · exact h

theorem overviewBlock_critical_count (results : List SemgrepResult)
    (h : (results.filter isError).isEmpty = false) :
    OccursIn ("🚨 **Critical:** " ++ toString (results.filter isError).length ++ "\n")
      (overviewBlock results) = true := by
  unfold overviewBlock
  simp only [h, Bool.false_eq_true, if_false]
  exact occursIn_append_left _ _ _ (occursIn_append_left _ _ _
    (occursIn_append_left _ _ _ (occursIn_append_right _ _ _ (occursIn_self _))))

theorem overviewBlock_warning_count (results : List SemgrepResult)
    (h : (results.filter isWarning).isEmpty = false) :
    OccursIn ("⚠️ **Warnings:** " ++ toString (results.filter isWarning).length ++ "\n")
      (overviewBlock results) = true := by
  unfold overviewBlock
  simp only [h, Bool.false_eq_true, if_false]
  exact occursIn_append_left _ _ _ (occursIn_append_left _ _ _
    (occursIn_append_right _ _ _ (occursIn_self _)))

theorem overviewBlock_info_count (results : List SemgrepResult)
    (h : (results.filter isInfo).isEmpty = false) :
    OccursIn ("ℹ️ **Info:** " ++ toString (results.filter isInfo).length ++ "\n")
      (overviewBlock results) = true := by
  unfold overviewBlock
  simp only [h, Bool.false_eq_true, if_false]
  exact occursIn_append_left _ _ _
    (occursIn_append_right _ _ _ (occursIn_self _))

theorem overview_in_summary (d : ScanReport)
    (h : (d.results.isEmpty && d.errors.isEmpty) = false) :
    OccursIn (overviewBlock d.results) (summarize_semgrep_results d) = true := by
  rw [summarize_nonempty_eq d h]
  exact occursIn_append_left _ _ _ (occursIn_append_left _ _ _
    (occursIn_append_left _ _ _ (occursIn_append_left _ _ _
      (occursIn_self_append _ _))))

theorem criticalBlock_in_summary (d : ScanReport)
    (h : (d.results.isEmpty && d.errors.isEmpty) = false) :
    OccursIn (criticalBlock d.results) (summarize_semgrep_results d) = true := by
  rw [summarize_nonempty_eq d h]
  exact occursIn_append_left _ _ _ (occursIn_append_left _ _ _
    (occursIn_append_left _ _ _ (occursIn_append_left _ _ _
      (occursIn_append_right _ _ _ (occursIn_self _)))))

theorem warningBlock_in_summary (d : ScanReport)
    (h : (d.results.isEmpty && d.errors.isEmpty) = false) :
    OccursIn (warningBlock d.results) (summarize_semgrep_results d) = true := by
  rw [summarize_nonempty_eq d h]
  exact occursIn_append_left _ _ _ (occursIn_append_left _ _ _
    (occursIn_append_left _ _ _
      (occursIn_append_right _ _ _ (occursIn_self _))))

theorem criticalSection_in_block (results : List SemgrepResult)
    (e : String × List SemgrepResult) (he : e ∈ issues_by_rule results)
    (hne : (e.2.filter isError).isEmpty = false) :
    OccursIn (criticalRuleSection e.1 e.2) (criticalBlock results) = true := by
  obtain ⟨r, hr⟩ : ∃ r, r ∈ e.2.filter isError := by
    cases hl : e.2.filter isError with
    | nil => rw [hl] at hne; cases hne
    | cons a t => exact ⟨a, List.mem_cons_self a t⟩
  have hr2 : r ∈ e.2 := (List.mem_filter.mp hr).1
  have hre : isError r = true := (List.mem_filter.mp hr).2
  have hblock : (results.filter isError).isEmpty = false :=
    isEmpty_false_of_mem
      (List.mem_filter.mpr ⟨issues_by_rule_src results e he r hr2, hre⟩)
  unfold criticalBlock
  simp only [hblock, Bool.false_eq_true, if_false]
  refine occursIn_append_right _ _ _ ?_
  exact occursIn_concatMap _ (fun p => criticalRuleSection p.1 p.2) _ e he
    (occursIn_self _)

theorem warningSection_in_block (results : List SemgrepResult)
    (e : String × List SemgrepResult) (he : e ∈ issues_by_rule results)
    (hne : (e.2.filter isWarning).isEmpty = false) :
    OccursIn (warningRuleSection e.1 e.2) (warningBlock results) = true := by
  obtain ⟨r, hr⟩ : ∃ r, r ∈ e.2.filter isWarning := by
    cases hl : e.2.filter isWarning with
    | nil => rw [hl] at hne; cases hne
    | cons a t => exact ⟨a, List.mem_cons_self a t⟩
  have hr2 : r ∈ e.2 := (List.mem_filter.mp hr).1
  have hrw : isWarning r = true := (List.mem_filter.mp hr).2
  have hblock : (results.filter isWarning).isEmpty = false :=
    isEmpty_false_of_mem
      (List.mem_filter.mpr ⟨issues_by_rule_src results e he r hr2, hrw⟩)
  unfold warningBlock
  simp only [hblock, Bool.false_eq_true, if_false]
  refine occursIn_append_right _ _ _ ?_
  exact occursIn_concatMap _ (fun p => warningRuleSection p.1 p.2) _ e he
    (occursIn_self _)

theorem criticalFileEntries_isEmpty_false {l : List SemgrepResult} {s : String}
    (hs : s ∈ criticalFileEntries l) : l.isEmpty = false := by
  cases l with
  | nil => simp [criticalFileEntries] at hs
  | cons a t => rfl

theorem warningFileEntries_isEmpty_false {l : List SemgrepResult} {s : String}
    (hs : s ∈ warningFileEntries l) : l.isEmpty = false := by
  cases l with
  | nil => simp [warningFileEntries] at hs
  | cons a t => rfl

theorem criticalFileEntry_in_section (rule_id : String)
    (rule_results : List SemgrepResult) (s : String)
    (hs : s ∈ criticalFileEntries (rule_results.filter isError)) :
    OccursIn s (criticalRuleSection rule_id rule_results) = true := by
  have hne : (rule_results.filter isError).isEmpty = false :=
    criticalFileEntries_isEmpty_false hs
  unfold criticalRuleSection
  simp only [hne, Bool.false_eq_true, if_false]
  refine occursIn_append_left _ _ _ (occursIn_append_right _ _ _ ?_)
  exact occursIn_concatMap _ id _ s (List.mem_append_left _ hs) (occursIn_self _)

theorem warningFileEntry_in_section (rule_id : String)
    (rule_results : List SemgrepResult) (s : String)
    (hs : s ∈ warningFileEntries (rule_results.filter isWarning)) :
    OccursIn s (warningRuleSection rule_id rule_results) = true := by
  have hne : (rule_results.filter isWarning).isEmpty = false :=
    warningFileEntries_isEmpty_false hs
  unfold warningRuleSection
  simp only [hne, Bool.false_eq_true, if_false]
  refine occursIn_append_left _ _ _ (occursIn_append_right _ _ _ ?_)
  exact occursIn_concatMap _ id _ s (List.mem_append_left _ hs) (occursIn_self _)

theorem criticalFileEntries_src (rule_results : List SemgrepResult) (s : String)
    (hs : s ∈ criticalFileEntries (rule_results.filter isError)) :
    ∃ r, r ∈ rule_results ∧ isError r = true ∧ s = fileLine r := by
  unfold criticalFileEntries at hs
  obtain ⟨r, hr, rfl⟩ := List.mem_map.mp hs
  have hr2 : r ∈ rule_results.filter isError := List.take_subset _ _ hr
  exact ⟨r, (List.mem_filter.mp hr2).1, (List.mem_filter.mp hr2).2, rfl⟩

theorem warningFileEntries_src (rule_results : List SemgrepResult) (s : String)
    (hs : s ∈ warningFileEntries (rule_results.filter isWarning)) :
    ∃ r, r ∈ rule_results ∧ isWarning r = true ∧ s = fileLine r := by
  unfold warningFileEntries at hs
  obtain ⟨r, hr, rfl⟩ := List.mem_map.mp hs
  have hr2 : r ∈ rule_results.filter isWarning := List.take_subset _ _ hr
  exact ⟨r, (List.mem_filter.mp hr2).1, (List.mem_filter.mp hr2).2, rfl⟩

theorem receive_semgrep_authorized (env : Env) (req : ReceiverRequest)
    (outcome : DeliveryOutcome)
    (hauth : headerGet req.headers "Authorization" =
      some ("Bearer " ++ pyStrOfOpt env.api_token)) :
    receive_semgrep env req outcome =
      match req.body with
      | Except.error e => (Response.httpError 400 e, ⟨true, false, false, false⟩)
      | Except.ok _ =>
        match extract_github_context req.headers with
        | Except.error e => (Response.httpError 400 e, ⟨true, false, false, false⟩)
        | Except.ok none => (successResponse, ⟨true, false, false, false⟩)
        | Except.ok (some _) =>
          (successResponse,
            ⟨true, true, true, (post_github_comment env.github_token outcome).2⟩) := by
  unfold receive_semgrep
  rw [if_neg (by simp [hauth])]

theorem extract_none_of_incomplete (headers : List (String × String))
    (h : (pyTruthyStrOpt (headerGet headers "X-GitHub-Repository-Owner") &&
          pyTruthyStrOpt (headerGet headers "X-GitHub-Repository-Name") &&
          pyTruthyStrOpt (headerGet headers "X-GitHub-PR-Number")) = false) :
    extract_github_context headers = Except.ok none := by
  unfold extract_github_context
  rw [if_neg (by simp [h])]

theorem extract_error_of_badPr (headers : List (String × String)) (m : String)
    (h : (pyTruthyStrOpt (headerGet headers "X-GitHub-Repository-Owner") &&
          pyTruthyStrOpt (headerGet headers "X-GitHub-Repository-Name") &&
          pyTruthyStrOpt (headerGet headers "X-GitHub-PR-Number")) = true)
    (hint : pyInt ((headerGet headers "X-GitHub-PR-Number").getD "") = Except.error m) :
    extract_github_context headers = Except.error m := by
  unfold extract_github_context
  rw [if_pos (by simp [h])]
  rw [hint]

/-- Claim C1: a POST whose `Authorization` header differs from the expected
bearer value built from the configuration (including a missing header)
gets the 401 Unauthorized response, and no further work happens: the body
is not parsed, no summary is computed, `post_github_comment` is never
invoked and no outbound HTTP POST is performed. -/
theorem claim_C1_unauthorized_401_no_work (env : Env) (req : ReceiverRequest)
    (outcome : DeliveryOutcome)
    (h : headerGet req.headers "Authorization" ≠
      some ("Bearer " ++ pyStrOfOpt env.api_token)) :
    receive_semgrep env req outcome =
      (Response.httpError 401 "Unauthorized", ⟨false, false, false, false⟩) := by
  unfold receive_semgrep
  rw [if_pos h]

/-- Witness for C1: a request with a wrong bearer token is rejected with
401 and an all-false effect trace. -/
theorem claim_C1_witness :
    headerGet [("Authorization", "Bearer wrong")] "Authorization" ≠
      some ("Bearer " ++ pyStrOfOpt envBoth.api_token) ∧
    receive_semgrep envBoth ⟨[("Authorization", "Bearer wrong")], Except.ok ⟨[], []⟩⟩
        (DeliveryOutcome.status 201) =
      (Response.httpError 401 "Unauthorized", ⟨false, false, false, false⟩) :=
  ⟨by decide,
   claim_C1_unauthorized_401_no_work envBoth
     ⟨[("Authorization", "Bearer wrong")], Except.ok ⟨[], []⟩⟩
     (DeliveryOutcome.status 201) (by decide)⟩

/-- Claim C2: for an authorized request, the response is a 400 carrying the
body's parse-failure message exactly when the body is unparseable, and in
that case neither `post_github_comment` nor the outbound POST happens. -/
theorem claim_C2_bad_json_400_no_outbound (env : Env) (req : ReceiverRequest)
    (outcome : DeliveryOutcome)
    (hauth : headerGet req.headers "Authorization" =
      some ("Bearer " ++ pyStrOfOpt env.api_token)) :
    ((∃ m, req.body = Except.error m ∧
        (receive_semgrep env req outcome).1 = Response.httpError 400 m) ↔
      (∃ m, req.body = Except.error m)) ∧
    (∀ m, req.body = Except.error m →
      receive_semgrep env req outcome =
        (Response.httpError 400 m, ⟨true, false, false, false⟩)) := by
  have hshape := receive_semgrep_authorized env req outcome hauth
  constructor
  · constructor
    · rintro ⟨m, hm, _⟩
      exact ⟨m, hm⟩
    · rintro ⟨m, hm⟩
      refine ⟨m, hm, ?_⟩
      rw [hshape, hm]
  · intro m hm
    rw [hshape, hm]

/-- Witness for C2: an authorized request with an unparseable body gets a
400 carrying the parse message and no outbound call. -/
theorem claim_C2_witness :
    headerGet [("Authorization", "Bearer tok")] "Authorization" =
      some ("Bearer " ++ pyStrOfOpt envBoth.api_token) ∧
    receive_semgrep envBoth
        ⟨[("Authorization", "Bearer tok")], Except.error "Expecting value: line 1 column 1 (char 0)"⟩
        (DeliveryOutcome.status 201) =
      (Response.httpError 400 "Expecting value: line 1 column 1 (char 0)",
        ⟨true, false, false, false⟩) :=
  ⟨by decide,
   (claim_C2_bad_json_400_no_outbound envBoth
     ⟨[("Authorization", "Bearer tok")], Except.error "Expecting value: line 1 column 1 (char 0)"⟩
     (DeliveryOutcome.status 201) (by decide)).2
     "Expecting value: line 1 column 1 (char 0)" rfl⟩

/-- Claim C3: an authorized request with a parseable body whose routing
headers are incomplete (any of owner, name, PR number missing or empty)
still gets the fixed success payload, with no summary computed and no
outbound call of any kind. -/
theorem claim_C3_incomplete_context_success_no_outbound (env : Env)
    (req : ReceiverRequest) (outcome : DeliveryOutcome) (d : ScanReport)
    (hauth : headerGet req.headers "Authorization" =
      some ("Bearer " ++ pyStrOfOpt env.api_token))
    (hbody : req.body = Except.ok d)
    (hmiss : (pyTruthyStrOpt (headerGet req.headers "X-GitHub-Repository-Owner") &&
              pyTruthyStrOpt (headerGet req.headers "X-GitHub-Repository-Name") &&
              pyTruthyStrOpt (headerGet req.headers "X-GitHub-PR-Number")) = false) :
    receive_semgrep env req outcome =
      (successResponse, ⟨true, false, false, false⟩) := by
  rw [receive_semgrep_authorized env req outcome hauth, hbody,
    extract_none_of_incomplete req.headers hmiss]

/-- Witness for C3: authorized, parseable body, owner header missing and
name header empty: the fixed success payload, with no outbound call. -/
theorem claim_C3_witness :
    headerGet incompleteHeaders "Authorization" =
      some ("Bearer " ++ pyStrOfOpt envBoth.api_token) ∧
    (pyTruthyStrOpt (headerGet incompleteHeaders "X-GitHub-Repository-Owner") &&
     pyTruthyStrOpt (headerGet incompleteHeaders "X-GitHub-Repository-Name") &&
     pyTruthyStrOpt (headerGet incompleteHeaders "X-GitHub-PR-Number")) = false ∧
    receive_semgrep envBoth ⟨incompleteHeaders, Except.ok sixErrorReport⟩
        (DeliveryOutcome.status 201) =
      (successResponse, ⟨true, false, false, false⟩) :=
  ⟨by decide, by decide,
   claim_C3_incomplete_context_success_no_outbound envBoth
     ⟨incompleteHeaders, Except.ok sixErrorReport⟩
     (DeliveryOutcome.status 201) sixErrorReport (by decide) rfl (by decide)⟩

/-- Claim C4: summary derivation is deterministic — identical `ScanReport`
inputs produce identical summary text.  In this embedding
`summarize_semgrep_results` is a pure function (it reads no configuration
and the handler threads no state through it), so purity holds by
construction and determinism is functionality. -/
theorem claim_C4_summary_deterministic (d1 d2 : ScanReport) (h : d1 = d2) :
    summarize_semgrep_results d1 = summarize_semgrep_results d2 :=
  congrArg summarize_semgrep_results h

/-- Witness for C4: two runs on the same concrete report agree. -/
theorem claim_C4_witness :
    mixedReport = mixedReport ∧
    summarize_semgrep_results mixedReport = summarize_semgrep_results mixedReport :=
  ⟨rfl, claim_C4_summary_deterministic mixedReport mixedReport rfl⟩

/-- Claim C5: a report whose results and errors arrays are both empty
summarizes to the fixed "no issues found" message. -/
theorem claim_C5_empty_report_fixed_message (d : ScanReport)
    (h1 : d.results = []) (h2 : d.errors = []) :
    summarize_semgrep_results d = noIssuesMessage := by
  unfold summarize_semgrep_results
  rw [h1, h2]
  rfl

/-- Witness for C5: the empty report yields the fixed message. -/
theorem claim_C5_witness :
    (⟨[], []⟩ : ScanReport).results = [] ∧ (⟨[], []⟩ : ScanReport).errors = [] ∧
    summarize_semgrep_results ⟨[], []⟩ = noIssuesMessage :=
  ⟨rfl, rfl, claim_C5_empty_report_fixed_message ⟨[], []⟩ rfl rfl⟩

set_option maxRecDepth 8000 in
/-- Claim C6: on the concrete report with 6 `ERROR` results under one rule
the summary carries exactly 5 file-entry lines (the lines starting with a
dash and a backtick) plus the `... and 1 more` elision; and in general the
per-rule file listing is capped at 5 entries for `ERROR` severity and 3
for `WARNING` severity, with an `... and N more` line exactly when the
cap is exceeded. -/
theorem claim_C6_file_listing_caps :
    countOccStr "- `" (summarize_semgrep_results sixErrorReport) = 5 ∧
    OccursIn "- ... and 1 more files" (summarize_semgrep_results sixErrorReport) = true ∧
    (∀ rule_critical : List SemgrepResult,
      (criticalFileEntries rule_critical).length = min 5 rule_critical.length) ∧
    (∀ rule_warnings : List SemgrepResult,
      (warningFileEntries rule_warnings).length = min 3 rule_warnings.length) ∧
    (∀ rule_critical : List SemgrepResult, rule_critical.length > 5 →
      ("- ... and " ++ toString (rule_critical.length - 5) ++ " more files\n") ∈
        criticalFileLines rule_critical) ∧
    (∀ rule_warnings : List SemgrepResult, rule_warnings.length > 3 →
      ("- ... and " ++ toString (rule_warnings.length - 3) ++ " more\n") ∈
        warningFileLines rule_warnings) ∧
    (∀ rule_critical : List SemgrepResult, ¬ rule_critical.length > 5 →
      criticalFileLines rule_critical = criticalFileEntries rule_critical) ∧
    (∀ rule_warnings : List SemgrepResult, ¬ rule_warnings.length > 3 →
      warningFileLines rule_warnings = warningFileEntries rule_warnings) := by
  refine ⟨by decide, by decide, ?_, ?_, ?_, ?_, ?_, ?_⟩
  · intro rs
    simp [criticalFileEntries]
  · intro rs
    simp [warningFileEntries]
  · intro rs h
    simp [criticalFileLines, h]
  · intro rs h
    simp [warningFileLines, h]
  · intro rs h
    simp [criticalFileLines, h]
  · intro rs h
    simp [warningFileLines, h]

/-- Witness for C6: a rule with 7 `ERROR` results exceeds the cap of 5 and
gets the `... and 2 more files` elision; a rule with 4 `WARNING` results
exceeds the cap of 3 and gets the `... and 1 more` elision; short lists
get no elision. -/
theorem claim_C6_witness :
    (List.replicate 7 infoResult).length > 5 ∧
    ("- ... and " ++ toString ((List.replicate 7 infoResult).length - 5) ++ " more files\n") ∈
      criticalFileLines (List.replicate 7 infoResult) ∧
    (List.replicate 4 infoResult).length > 3 ∧
    ("- ... and " ++ toString ((List.replicate 4 infoResult).length - 3) ++ " more\n") ∈
      warningFileLines (List.replicate 4 infoResult) ∧
    ¬ (List.replicate 2 infoResult).length > 5 ∧
    criticalFileLines (List.replicate 2 infoResult) =
      criticalFileEntries (List.replicate 2 infoResult) :=
  ⟨by decide,
   claim_C6_file_listing_caps.2.2.2.2.1 (List.replicate 7 infoResult) (by decide),
   by decide,
   claim_C6_file_listing_caps.2.2.2.2.2.1 (List.replicate 4 infoResult) (by decide),
   by decide,
   claim_C6_file_listing_caps.2.2.2.2.2.2.1 (List.replicate 2 infoResult) (by decide)⟩

/-- Counterexample to claim C7: the claim demands per-rule sections listing
affected file paths for all three severity tiers, `INFO` included.  For
the report whose single result has severity `INFO`, the summary contains
no rule-section header at all and never mentions the result's file path:
`INFO` results are only counted in the overview. -/
theorem claim_C7_counterexample_info_not_listed :
    infoResult ∈ infoReport.results ∧ isInfo infoResult = true ∧
    infoResult.pathD = "app/main.py" ∧
    OccursIn "app/main.py" (summarize_semgrep_results infoReport) = false ∧
    OccursIn "### `" (summarize_semgrep_results infoReport) = false := by
  decide

/-- Amended claim C7: for every non-empty report the summary emits the
total-issues count line and a severity-count line for each non-empty tier;
for the `ERROR` and `WARNING` tiers only it emits per-rule sections —
every such section, and every capped file-path/line entry it lists, occurs
in the summary text — while every listed file entry originates from an
`ERROR` result (critical sections) or a `WARNING` result (warning
sections); since an `INFO` result is neither, `INFO` results are merely
counted in the overview and receive no per-rule section. -/
theorem claim_C7_amended_sections_error_warning_only (d : ScanReport)
    (h : (d.results.isEmpty && d.errors.isEmpty) = false) :
    OccursIn (totalIssuesLine d.results) (summarize_semgrep_results d) = true ∧
    ((d.results.filter isError).isEmpty = false →
      OccursIn ("🚨 **Critical:** " ++ toString (d.results.filter isError).length ++ "\n")
        (summarize_semgrep_results d) = true) ∧
    ((d.results.filter isWarning).isEmpty = false →
      OccursIn ("⚠️ **Warnings:** " ++ toString (d.results.filter isWarning).length ++ "\n")
        (summarize_semgrep_results d) = true) ∧
    ((d.results.filter isInfo).isEmpty = false →
      OccursIn ("ℹ️ **Info:** " ++ toString (d.results.filter isInfo).length ++ "\n")
        (summarize_semgrep_results d) = true) ∧
    (∀ r ∈ d.results, isError r = true →
      OccursIn ("### `" ++ r.checkIdD ++ "`\n") (summarize_semgrep_results d) = true) ∧
    (∀ r ∈ d.results, isWarning r = true →
      OccursIn ("### `" ++ r.checkIdD ++ "`\n") (summarize_semgrep_results d) = true) ∧
    (∀ e ∈ issues_by_rule d.results, (e.2.filter isError).isEmpty = false →
      OccursIn (criticalRuleSection e.1 e.2) (summarize_semgrep_results d) = true) ∧
    (∀ e ∈ issues_by_rule d.results, (e.2.filter isWarning).isEmpty = false →
      OccursIn (warningRuleSection e.1 e.2) (summarize_semgrep_results d) = true) ∧
    (∀ e ∈ issues_by_rule d.results, ∀ s ∈ criticalFileEntries (e.2.filter isError),
      OccursIn s (summarize_semgrep_results d) = true) ∧
    (∀ e ∈ issues_by_rule d.results, ∀ s ∈ warningFileEntries (e.2.filter isWarning),
      OccursIn s (summarize_semgrep_results d) = true) ∧
    (∀ e ∈ issues_by_rule d.results, ∀ s ∈ criticalFileEntries (e.2.filter isError),
      ∃ r, r ∈ d.results ∧ isError r = true ∧ s = fileLine r) ∧
    (∀ e ∈ issues_by_rule d.results, ∀ s ∈ warningFileEntries (e.2.filter isWarning),
      ∃ r, r ∈ d.results ∧ isWarning r = true ∧ s = fileLine r) ∧
    (∀ r : SemgrepResult, isInfo r = true →
      isError r = false ∧ isWarning r = false) := by
  refine ⟨?_, ?_, ?_, ?_, ?_, ?_, ?_, ?_, ?_, ?_, ?_, ?_, ?_⟩
  · exact occursIn_trans _ _ _ (overviewBlock_total d.results)
      (overview_in_summary d h)
  · intro hc
    exact occursIn_trans _ _ _ (overviewBlock_critical_count d.results hc)
      (overview_in_summary d h)
  · intro hw
    exact occursIn_trans _ _ _ (overviewBlock_warning_count d.results hw)
      (overview_in_summary d h)
  · intro hi
    exact occursIn_trans _ _ _ (overviewBlock_info_count d.results hi)
      (overview_in_summary d h)
  · intro r hr he
    exact occursIn_trans _ _ _ (criticalBlock_rule_header d.results r hr he)
      (criticalBlock_in_summary d h)
  · intro r hr hw
    exact occursIn_trans _ _ _ (warningBlock_rule_header d.results r hr hw)
      (warningBlock_in_summary d h)
  · intro e he hne
    exact occursIn_trans _ _ _ (criticalSection_in_block d.results e he hne)
      (criticalBlock_in_summary d h)
  · intro e he hne
    exact occursIn_trans _ _ _ (warningSection_in_block d.results e he hne)
      (warningBlock_in_summary d h)
  · intro e he s hs
    exact occursIn_trans _ _ _ (criticalFileEntry_in_section e.1 e.2 s hs)
      (occursIn_trans _ _ _
        (criticalSection_in_block d.results e he (criticalFileEntries_isEmpty_false hs))
        (criticalBlock_in_summary d h))
  · intro e he s hs
    exact occursIn_trans _ _ _ (warningFileEntry_in_section e.1 e.2 s hs)
      (occursIn_trans _ _ _
        (warningSection_in_block d.results e he (warningFileEntries_isEmpty_false hs))
        (warningBlock_in_summary d h))
  · intro e he s hs
    obtain ⟨r, hr, hre, rfl⟩ := criticalFileEntries_src e.2 s hs
    exact ⟨r, issues_by_rule_src d.results e he r hr, hre, rfl⟩
  · intro e he s hs
    obtain ⟨r, hr, hrw, rfl⟩ := warningFileEntries_src e.2 s hs
    exact ⟨r, issues_by_rule_src d.results e he r hr, hrw, rfl⟩
  · intro r hri
    have hs : r.severity = some "INFO" := by simpa [isInfo] using hri
    constructor
    · unfold isError
      rw [hs]
      decide
    · unfold isWarning
      rw [hs]
      decide

/-- Witness for the amended C7: on the report with one `ERROR` and one
`WARNING` result the summary carries the total line, the emitted severity
counts, the per-rule sections of both tiers with their file entries, and
every listed entry stems from an `ERROR` or `WARNING` result. -/
theorem claim_C7_amended_witness :
    (mixedReport.results.isEmpty && mixedReport.errors.isEmpty) = false ∧
    (OccursIn (totalIssuesLine mixedReport.results)
        (summarize_semgrep_results mixedReport) = true ∧
      ((mixedReport.results.filter isError).isEmpty = false →
        OccursIn ("🚨 **Critical:** " ++
            toString (mixedReport.results.filter isError).length ++ "\n")
          (summarize_semgrep_results mixedReport) = true) ∧
      ((mixedReport.results.filter isWarning).isEmpty = false →
        OccursIn ("⚠️ **Warnings:** " ++
            toString (mixedReport.results.filter isWarning).length ++ "\n")
          (summarize_semgrep_results mixedReport) = true) ∧
      ((mixedReport.results.filter isInfo).isEmpty = false →
        OccursIn ("ℹ️ **Info:** " ++
            toString (mixedReport.results.filter isInfo).length ++ "\n")
          (summarize_semgrep_results mixedReport) = true) ∧
      (∀ r ∈ mixedReport.results, isError r = true →
        OccursIn ("### `" ++ r.checkIdD ++ "`\n")
          (summarize_semgrep_results mixedReport) = true) ∧
      (∀ r ∈ mixedReport.results, isWarning r = true →
        OccursIn ("### `" ++ r.checkIdD ++ "`\n")
          (summarize_semgrep_results mixedReport) = true) ∧
      (∀ e ∈ issues_by_rule mixedReport.results,
        (e.2.filter isError).isEmpty = false →
        OccursIn (criticalRuleSection e.1 e.2)
          (summarize_semgrep_results mixedReport) = true) ∧
      (∀ e ∈ issues_by_rule mixedReport.results,
        (e.2.filter isWarning).isEmpty = false →
        OccursIn (warningRuleSection e.1 e.2)
          (summarize_semgrep_results mixedReport) = true) ∧
      (∀ e ∈ issues_by_rule mixedReport.results,
        ∀ s ∈ criticalFileEntries (e.2.filter isError),
        OccursIn s (summarize_semgrep_results mixedReport) = true) ∧
      (∀ e ∈ issues_by_rule mixedReport.results,
        ∀ s ∈ warningFileEntries (e.2.filter isWarning),
        OccursIn s (summarize_semgrep_results mixedReport) = true) ∧
      (∀ e ∈ issues_by_rule mixedReport.results,
        ∀ s ∈ criticalFileEntries (e.2.filter isError),
        ∃ r, r ∈ mixedReport.results ∧ isError r = true ∧ s = fileLine r) ∧
      (∀ e ∈ issues_by_rule mixedReport.results,
        ∀ s ∈ warningFileEntries (e.2.filter isWarning),
        ∃ r, r ∈ mixedReport.results ∧ isWarning r = true ∧ s = fileLine r) ∧
      (∀ r : SemgrepResult, isInfo r = true →
        isError r = false ∧ isWarning r = false)) :=
  ⟨by decide, claim_C7_amended_sections_error_warning_only mixedReport (by decide)⟩

/-- Claim C8: for an authorized request with a parseable body and a
complete routing context, the endpoint responds with the fixed success
payload whatever the outbound call does — any status code (201 or not)
and any transport exception are swallowed and never surface. -/
theorem claim_C8_delivery_failure_still_success (env : Env)
    (req : ReceiverRequest) (outcome : DeliveryOutcome) (d : ScanReport)
    (ctx : GithubContext)
    (hauth : headerGet req.headers "Authorization" =
      some ("Bearer " ++ pyStrOfOpt env.api_token))
    (hbody : req.body = Except.ok d)
    (hctx : extract_github_context req.headers = Except.ok (some ctx)) :
    (receive_semgrep env req outcome).1 = successResponse := by
  rw [receive_semgrep_authorized env req outcome hauth, hbody, hctx]

/-- Witness for C8: a fully routed request whose delivery returns a 500
status still gets the fixed success payload. -/
theorem claim_C8_witness :
    headerGet fullHeaders "Authorization" =
      some ("Bearer " ++ pyStrOfOpt envBoth.api_token) ∧
    extract_github_context fullHeaders = Except.ok (some ⟨"octo", "webapp", 12⟩) ∧
    (receive_semgrep envBoth ⟨fullHeaders, Except.ok sixErrorReport⟩
        (DeliveryOutcome.status 500)).1 = successResponse :=
  ⟨by decide, rfl,
   claim_C8_delivery_failure_still_success envBoth
     ⟨fullHeaders, Except.ok sixErrorReport⟩ (DeliveryOutcome.status 500)
     sixErrorReport ⟨"octo", "webapp", 12⟩ (by decide) rfl rfl⟩

/-- Claim C9: when `API_TOKEN` is absent from the environment the expected
header value degrades to the literal `Bearer None`, so a request carrying
exactly that `Authorization` header is not rejected with 401; it proceeds
to body parsing and normal processing. -/
theorem claim_C9_missing_token_bearer_none_accepted (env : Env)
    (req : ReceiverRequest) (outcome : DeliveryOutcome)
    (htok : env.api_token = none)
    (hauth : headerGet req.headers "Authorization" = some "Bearer None") :
    (receive_semgrep env req outcome).1 ≠ Response.httpError 401 "Unauthorized" ∧
    (receive_semgrep env req outcome).2.body_parse_attempted = true := by
  have hauth' : headerGet req.headers "Authorization" =
      some ("Bearer " ++ pyStrOfOpt env.api_token) := by
    rw [htok]
    exact hauth
  rw [receive_semgrep_authorized env req outcome hauth']
  cases hb : req.body with
  | error e =>
    exact ⟨by simp, rfl⟩
  | ok d =>
    cases hc : extract_github_context req.headers with
    | error e =>
      exact ⟨by simp, rfl⟩
    | ok octx =>
      cases octx with
      | none => exact ⟨by simp [successResponse], rfl⟩
      | some ctx => exact ⟨by simp [successResponse], rfl⟩

/-- Witness for C9: with no `API_TOKEN` configured, the literal header
`Bearer None` passes authentication and the request is processed. -/
theorem claim_C9_witness :
    (⟨none, none⟩ : Env).api_token = none ∧
    headerGet [("Authorization", "Bearer None")] "Authorization" =
      some "Bearer None" ∧
    ((receive_semgrep ⟨none, none⟩ ⟨[("Authorization", "Bearer None")], Except.ok ⟨[], []⟩⟩
        (DeliveryOutcome.status 201)).1 ≠ Response.httpError 401 "Unauthorized" ∧
      (receive_semgrep ⟨none, none⟩ ⟨[("Authorization", "Bearer None")], Except.ok ⟨[], []⟩⟩
        (DeliveryOutcome.status 201)).2.body_parse_attempted = true) :=
  ⟨rfl, by decide,
   claim_C9_missing_token_bearer_none_accepted ⟨none, none⟩
     ⟨[("Authorization", "Bearer None")], Except.ok ⟨[], []⟩⟩
     (DeliveryOutcome.status 201) rfl (by decide)⟩

/-- Claim C10: for an authorized request with a parseable body whose three
routing headers are all present and non-empty but whose PR-number header
is not a valid decimal integer, the `int` conversion fails and the
handler responds 400 with that conversion error message instead of the
success payload, with no outbound call of any kind. -/
theorem claim_C10_bad_pr_number_400 (env : Env) (req : ReceiverRequest)
    (outcome : DeliveryOutcome) (d : ScanReport) (m : String)
    (hauth : headerGet req.headers "Authorization" =
      some ("Bearer " ++ pyStrOfOpt env.api_token))
    (hbody : req.body = Except.ok d)
    (hcomplete : (pyTruthyStrOpt (headerGet req.headers "X-GitHub-Repository-Owner") &&
                  pyTruthyStrOpt (headerGet req.headers "X-GitHub-Repository-Name") &&
                  pyTruthyStrOpt (headerGet req.headers "X-GitHub-PR-Number")) = true)
    (hint : pyInt ((headerGet req.headers "X-GitHub-PR-Number").getD "") =
      Except.error m) :
    receive_semgrep env req outcome =
      (Response.httpError 400 m, ⟨true, false, false, false⟩) := by
  rw [receive_semgrep_authorized env req outcome hauth, hbody,
    extract_error_of_badPr req.headers m hcomplete hint]

/-- Witness for C10: PR-number header `abc` yields the 400 response
carrying Python's `int` conversion error message and no outbound call. -/
theorem claim_C10_witness :
    headerGet badPrHeaders "Authorization" =
      some ("Bearer " ++ pyStrOfOpt envBoth.api_token) ∧
    (pyTruthyStrOpt (headerGet badPrHeaders "X-GitHub-Repository-Owner") &&
     pyTruthyStrOpt (headerGet badPrHeaders "X-GitHub-Repository-Name") &&
     pyTruthyStrOpt (headerGet badPrHeaders "X-GitHub-PR-Number")) = true ∧
    pyInt ((headerGet badPrHeaders "X-GitHub-PR-Number").getD "") =
      Except.error "invalid literal for int() with base 10: 'abc'" ∧
    receive_semgrep envBoth ⟨badPrHeaders, Except.ok ⟨[], []⟩⟩
        (DeliveryOutcome.status 201) =
      (Response.httpError 400 "invalid literal for int() with base 10: 'abc'",
        ⟨true, false, false, false⟩) :=
  ⟨by decide, by decide, rfl,
   claim_C10_bad_pr_number_400 envBoth ⟨badPrHeaders, Except.ok ⟨[], []⟩⟩
     (DeliveryOutcome.status 201) ⟨[], []⟩
     "invalid literal for int() with base 10: 'abc'" (by decide) rfl (by decide) rfl⟩
